import Mathlib

/-!
Verification of the hospital-management / user-registry HTTP service.

The embedding follows the two Go source files. Pure data is carried by
Lean structures mirroring the Go structs; each HTTP handler becomes a
pure function from the request (method, decoded body), the current
store contents, the processing clock, the store-assigned fresh
identifier and fault flags (modelling store timeouts) to the HTTP
response together with the resulting store contents. The MongoDB
driver is an external collaborator, so its operations (`findOne`,
`insert` per collection) are modelled from the spec's Entity Store
contract: `insert` assigns the identifier and fails with a constraint
violation on a duplicate unique email or with `Unavailable` on a
timeout; `findOne` returns a not-found error when no record matches
and `Unavailable` on a timeout.
-/

/-- Identifiers (`primitive.ObjectID` in the source) are abstracted as
naturals; the store assigns them. -/
abbrev ObjectID := Nat

/-- `User` struct of `main.go`: id, name, email. It has no creation
timestamp field. -/
structure User where
  ID : ObjectID
  Name : String
  Email : String
  deriving DecidableEq, Repr

/-- `Patient` struct of the hospital source file. -/
structure Patient where
  ID : ObjectID
  Name : String
  Email : String
  Age : Int
  Gender : String
  BloodGroup : String
  ContactNo : String
  CreatedAt : Nat
  deriving DecidableEq, Repr

/-- `Doctor` struct of the hospital source file. -/
structure Doctor where
  ID : ObjectID
  Name : String
  Email : String
  Specialization : String
  Department : String
  ContactNo : String
  CreatedAt : Nat
  deriving DecidableEq, Repr

/-- `Appointment` struct of the hospital source file. -/
structure Appointment where
  ID : ObjectID
  PatientID : ObjectID
  DoctorID : ObjectID
  DateTime : Nat
  Status : String
  Description : String
  CreatedAt : Nat
  deriving DecidableEq, Repr

/-- `Department` struct of the hospital source file. -/
structure Department where
  ID : ObjectID
  Name : String
  Description : String
  CreatedAt : Nat
  deriving DecidableEq, Repr

/-- The four collections of the `hospitaldb` database. -/
structure HospitalStore where
  patients : List Patient
  doctors : List Doctor
  appointments : List Appointment
  departments : List Department
  deriving DecidableEq, Repr

/-- The single collection of the `userdb` database. -/
structure UserStore where
  users : List User
  deriving DecidableEq, Repr

/-- Error kinds of the Entity Store (spec taxonomy: `NotFound` from
`findOne` with no match, `ConstraintViolation` from a duplicate unique
field, `Unavailable` from a timeout or connection failure). -/
inductive StoreError where
  | notFound
  | constraintViolation
  | unavailable
  deriving DecidableEq, Repr

/-- The message the Go `error` value carries (`err.Error()`), one fixed
representative per kind. -/
def StoreError.message : StoreError → String
  | .notFound => "mongo: no documents in result"
  | .constraintViolation => "duplicate key error"
  | .unavailable => "context deadline exceeded"

/-- Response body: either a plain-text error payload (what `http.Error`
writes) or the JSON encoding of a record or list of records. -/
inductive Body where
  | text (msg : String)
  | userJson (u : User)
  | usersJson (us : List User)
  | patientJson (p : Patient)
  | patientsJson (ps : List Patient)
  | doctorJson (d : Doctor)
  | appointmentJson (a : Appointment)
  | departmentJson (d : Department)
  deriving DecidableEq, Repr

/-- An HTTP response: status code and body. -/
structure Response where
  status : Nat
  body : Body
  deriving DecidableEq, Repr

def methodNotAllowedMsg : String := "Method not allowed"

def patientNotFoundMsg : String := "patient not found"

def doctorNotFoundMsg : String := "doctor not found"

def scheduledStatus : String := "Scheduled"

def postMethod : String := "POST"

def getMethod : String := "GET"

/-- Modelled from the spec: Entity Store `findOne`. A filter with no
matches yields a `NotFound` error; a timeout (the `fault` flag) yields
`Unavailable`; otherwise the first matching record is returned. -/
def findOne {α : Type} (coll : List α) (filt : α → Bool) (fault : Bool) :
    Except StoreError α :=
  if fault then .error .unavailable
  else
    match coll.find? filt with
    | some r => .ok r
    | none => .error .notFound

/-- Modelled from the spec: Entity Store `insert` on the `users`
collection (unique index on email). The store assigns the identifier
`fid`; a duplicate email fails with `ConstraintViolation`; a timeout
(the `fault` flag) fails with `Unavailable`. -/
def insertUser (s : UserStore) (fault : Bool) (fid : ObjectID) (u : User) :
    Except StoreError (UserStore × ObjectID) :=
  if fault then .error .unavailable
  else if s.users.any (fun v => v.Email == u.Email) then .error .constraintViolation
  else .ok (⟨s.users ++ [{ u with ID := fid }]⟩, fid)

/-- Modelled from the spec: Entity Store `insert` on the `patients`
collection (unique index on email). -/
def insertPatient (s : HospitalStore) (fault : Bool) (fid : ObjectID) (p : Patient) :
    Except StoreError (HospitalStore × ObjectID) :=
  if fault then .error .unavailable
  else if s.patients.any (fun q => q.Email == p.Email) then .error .constraintViolation
  else .ok ({ s with patients := s.patients ++ [{ p with ID := fid }] }, fid)

/-- Modelled from the spec: Entity Store `insert` on the `doctors`
collection (unique index on email). -/
def insertDoctor (s : HospitalStore) (fault : Bool) (fid : ObjectID) (d : Doctor) :
    Except StoreError (HospitalStore × ObjectID) :=
  if fault then .error .unavailable
  else if s.doctors.any (fun q => q.Email == d.Email) then .error .constraintViolation
  else .ok ({ s with doctors := s.doctors ++ [{ d with ID := fid }] }, fid)

/-- Modelled from the spec: Entity Store `insert` on the `appointments`
collection (no uniqueness constraint). -/
def insertAppointment (s : HospitalStore) (fault : Bool) (fid : ObjectID) (a : Appointment) :
    Except StoreError (HospitalStore × ObjectID) :=
  if fault then .error .unavailable
  else .ok ({ s with appointments := s.appointments ++ [{ a with ID := fid }] }, fid)

/-- Modelled from the spec: Entity Store `insert` on the `departments`
collection (no uniqueness constraint). -/
def insertDepartment (s : HospitalStore) (fault : Bool) (fid : ObjectID) (d : Department) :
    Except StoreError (HospitalStore × ObjectID) :=
  if fault then .error .unavailable
  else .ok ({ s with departments := s.departments ++ [{ d with ID := fid }] }, fid)

/-- `validateAppointment` of the hospital source file: look up the
patient by `_id`, returning the fixed error message `patient not
found` on any lookup error; then look up the doctor by `_id`,
returning `doctor not found` on any lookup error; otherwise return
`nil` (here `none`). It only reads the store. `pf` and `df` are the
timeout fault flags of the two `FindOne` calls. -/
def validateAppointment (s : HospitalStore) (pf df : Bool) (appointment : Appointment) :
    Option String :=
  match findOne s.patients (fun p => p.ID == appointment.PatientID) pf with
  | .error _ => some patientNotFoundMsg
  | .ok _ =>
    match findOne s.doctors (fun d => d.ID == appointment.DoctorID) df with
    | .error _ => some doctorNotFoundMsg
    | .ok _ => none

/-- `createUser` of `main.go`. `body` is the result of decoding the
request body (`.error msg` models a malformed body with the decoder's
message). `now` is the processing clock; the Go handler never reads it
(the `User` struct has no timestamp field), which this definition
reflects by not using it. `ifault` is the timeout fault flag of the
`InsertOne` call and `fid` the identifier the store would assign. -/
def createUser (method : String) (body : Except String User) (s : UserStore)
    (_now : Nat) (ifault : Bool) (fid : ObjectID) : Response × UserStore :=
  if method ≠ postMethod then (⟨405, .text methodNotAllowedMsg⟩, s)
  else
    match body with
    | .error e => (⟨400, .text e⟩, s)
    | .ok user =>
      match insertUser s ifault fid user with
      | .error e => (⟨500, .text e.message⟩, s)
      | .ok (s', ins) => (⟨201, .userJson { user with ID := ins }⟩, s')

/-- `getUsers` of `main.go`. `ffault` and `afault` are the timeout
fault flags of the `Find` call and of draining the cursor
(`cursor.All`). -/
def getUsers (method : String) (s : UserStore) (ffault afault : Bool) :
    Response × UserStore :=
  if method ≠ getMethod then (⟨405, .text methodNotAllowedMsg⟩, s)
  else if ffault then (⟨500, .text StoreError.unavailable.message⟩, s)
  else if afault then (⟨500, .text StoreError.unavailable.message⟩, s)
  else (⟨200, .usersJson s.users⟩, s)

/-- `createPatient` of the hospital source file: decode, set
`CreatedAt := now`, insert, attach the new identifier, respond 201. -/
def createPatient (method : String) (body : Except String Patient) (s : HospitalStore)
    (now : Nat) (ifault : Bool) (fid : ObjectID) : Response × HospitalStore :=
  if method ≠ postMethod then (⟨405, .text methodNotAllowedMsg⟩, s)
  else
    match body with
    | .error e => (⟨400, .text e⟩, s)
    | .ok patient0 =>
      let patient := { patient0 with CreatedAt := now }
      match insertPatient s ifault fid patient with
      | .error e => (⟨500, .text e.message⟩, s)
      | .ok (s', ins) => (⟨201, .patientJson { patient with ID := ins }⟩, s')

/-- `getPatients` of the hospital source file. -/
def getPatients (method : String) (s : HospitalStore) (ffault afault : Bool) :
    Response × HospitalStore :=
  if method ≠ getMethod then (⟨405, .text methodNotAllowedMsg⟩, s)
  else if ffault then (⟨500, .text StoreError.unavailable.message⟩, s)
  else if afault then (⟨500, .text StoreError.unavailable.message⟩, s)
  else (⟨200, .patientsJson s.patients⟩, s)

/-- `createDoctor` of the hospital source file. -/
def createDoctor (method : String) (body : Except String Doctor) (s : HospitalStore)
    (now : Nat) (ifault : Bool) (fid : ObjectID) : Response × HospitalStore :=
  if method ≠ postMethod then (⟨405, .text methodNotAllowedMsg⟩, s)
  else
    match body with
    | .error e => (⟨400, .text e⟩, s)
    | .ok doctor0 =>
      let doctor := { doctor0 with CreatedAt := now }
      match insertDoctor s ifault fid doctor with
      | .error e => (⟨500, .text e.message⟩, s)
      | .ok (s', ins) => (⟨201, .doctorJson { doctor with ID := ins }⟩, s')

/-- `createAppointment` of the hospital source file: decode, set
`CreatedAt := now` and `Status := "Scheduled"` (overriding any
client-supplied status), run `validateAppointment` (its failure is a
400 with the validation message), insert, attach the new identifier,
respond 201. `pf` and `df` are the fault flags of the two validation
lookups, `ifault` of the insert. -/
def createAppointment (method : String) (body : Except String Appointment)
    (s : HospitalStore) (now : Nat) (pf df ifault : Bool) (fid : ObjectID) :
    Response × HospitalStore :=
  if method ≠ postMethod then (⟨405, .text methodNotAllowedMsg⟩, s)
  else
    match body with
    | .error e => (⟨400, .text e⟩, s)
    | .ok appointment0 =>
      let appointment1 := { appointment0 with CreatedAt := now }
      let appointment := { appointment1 with Status := scheduledStatus }
      match validateAppointment s pf df appointment with
      | some msg => (⟨400, .text msg⟩, s)
      | none =>
        match insertAppointment s ifault fid appointment with
        | .error e => (⟨500, .text e.message⟩, s)
        | .ok (s', ins) => (⟨201, .appointmentJson { appointment with ID := ins }⟩, s')

/-- `createDepartment` of the hospital source file. -/
def createDepartment (method : String) (body : Except String Department)
    (s : HospitalStore) (now : Nat) (ifault : Bool) (fid : ObjectID) :
    Response × HospitalStore :=
  if method ≠ postMethod then (⟨405, .text methodNotAllowedMsg⟩, s)
  else
    match body with
    | .error e => (⟨400, .text e⟩, s)
    | .ok department0 =>
      let department := { department0 with CreatedAt := now }
      match insertDepartment s ifault fid department with
      | .error e => (⟨500, .text e.message⟩, s)
      | .ok (s', ins) => (⟨201, .departmentJson { department with ID := ins }⟩, s')

/-! ## Concrete fixtures used by witnesses -/

def patient0 : Patient :=
  { ID := 1, Name := "A", Email := "a@x.com", Age := 30, Gender := "F",
    BloodGroup := "O+", ContactNo := "123", CreatedAt := 0 }

def doctor0 : Doctor :=
  { ID := 2, Name := "B", Email := "b@x.com", Specialization := "cardio",
    Department := "cardiology", ContactNo := "456", CreatedAt := 0 }

def appt0 : Appointment :=
  { ID := 0, PatientID := 1, DoctorID := 2, DateTime := 5,
    Status := "Cancelled", Description := "checkup", CreatedAt := 0 }

def user0 : User := { ID := 0, Name := "U", Email := "u@x.com" }

def userDup : User := { ID := 3, Name := "V", Email := "u@x.com" }

def store0 : HospitalStore :=
  { patients := [patient0], doctors := [doctor0], appointments := [], departments := [] }

def emptyHospital : HospitalStore :=
  { patients := [], doctors := [], appointments := [], departments := [] }

def emptyUsers : UserStore := { users := [] }

/-! ## Helper lemmas about the store operations -/

theorem findOne_err_of_no_match {α : Type} (coll : List α) (filt : α → Bool) (fault : Bool)
    (h : ∀ r ∈ coll, filt r = false) : ∃ e, findOne coll filt fault = .error e := by
  unfold findOne
  split
  · exact ⟨_, rfl⟩
  · rw [List.find?_eq_none.mpr fun x hx => by simp [h x hx]]
    exact ⟨_, rfl⟩

theorem findOne_ok_of_match {α : Type} (coll : List α) (filt : α → Bool)
    (h : ∃ r ∈ coll, filt r = true) : ∃ r, findOne coll filt false = .ok r := by
  have hs : (coll.find? filt).isSome := List.find?_isSome.mpr (by
    obtain ⟨r, hmem, hr⟩ := h
    exact ⟨r, hmem, hr⟩)
  obtain ⟨r, hr⟩ := Option.isSome_iff_exists.mp hs
  refine ⟨r, ?_⟩
  unfold findOne
  simp [hr]

theorem validateAppointment_patient_err {s : HospitalStore} {pf : Bool} (df : Bool)
    {a : Appointment} {e : StoreError}
    (h : findOne s.patients (fun q => q.ID == a.PatientID) pf = .error e) :
    validateAppointment s pf df a = some patientNotFoundMsg := by
  unfold validateAppointment
  rw [h]

theorem validateAppointment_doctor_err {s : HospitalStore} {pf df : Bool}
    {a : Appointment} {p : Patient} {e : StoreError}
    (hp : findOne s.patients (fun q => q.ID == a.PatientID) pf = .ok p)
    (hd : findOne s.doctors (fun q => q.ID == a.DoctorID) df = .error e) :
    validateAppointment s pf df a = some doctorNotFoundMsg := by
  unfold validateAppointment
  rw [hp, hd]

theorem validateAppointment_both_ok {s : HospitalStore} {pf df : Bool}
    {a : Appointment} {p : Patient} {d : Doctor}
    (hp : findOne s.patients (fun q => q.ID == a.PatientID) pf = .ok p)
    (hd : findOne s.doctors (fun q => q.ID == a.DoctorID) df = .ok d) :
    validateAppointment s pf df a = none := by
  unfold validateAppointment
  rw [hp, hd]

theorem validateAppointment_some_of_bad_ref (s : HospitalStore) (pf df : Bool)
    (a : Appointment)
    (h : (∀ p ∈ s.patients, p.ID ≠ a.PatientID) ∨ (∀ d ∈ s.doctors, d.ID ≠ a.DoctorID)) :
    ∃ msg, validateAppointment s pf df a = some msg := by
  cases h with
  | inl hp =>
    obtain ⟨e, he⟩ := findOne_err_of_no_match s.patients
      (fun q => q.ID == a.PatientID) pf (fun r hr => by simp [hp r hr])
    exact ⟨_, validateAppointment_patient_err df he⟩
  | inr hd =>
    cases hfp : findOne s.patients (fun q => q.ID == a.PatientID) pf with
    | error e => exact ⟨_, validateAppointment_patient_err df hfp⟩
    | ok p =>
      obtain ⟨e, he⟩ := findOne_err_of_no_match s.doctors
        (fun q => q.ID == a.DoctorID) df (fun r hr => by simp [hd r hr])
      exact ⟨_, validateAppointment_doctor_err hfp he⟩

theorem validateAppointment_none_of_found (s : HospitalStore) (a : Appointment)
    (hp : ∃ p ∈ s.patients, p.ID = a.PatientID)
    (hd : ∃ d ∈ s.doctors, d.ID = a.DoctorID) :
    validateAppointment s false false a = none := by
  obtain ⟨p, hfp⟩ := findOne_ok_of_match s.patients
    (fun q => q.ID == a.PatientID) (by
      obtain ⟨p, hmem, hid⟩ := hp
      exact ⟨p, hmem, by simp [hid]⟩)
  obtain ⟨d, hfd⟩ := findOne_ok_of_match s.doctors
    (fun q => q.ID == a.DoctorID) (by
      obtain ⟨d, hmem, hid⟩ := hd
      exact ⟨d, hmem, by simp [hid]⟩)
  exact validateAppointment_both_ok hfp hfd

/-! ## C1 -/

/-- C1: `validateAppointment` performs the two existence checks in
order: it first looks up the patient by the candidate's patient
reference via `findOne` and, on a lookup failure, fails with the
`patient not found` error no matter what the doctor lookup would do;
only when the patient lookup succeeds does it look up the doctor, and
on a doctor lookup failure it fails with `doctor not found`; when both
lookups succeed it returns `none` (Go `nil`). It makes no change to
the store: by construction it returns only the optional error and its
only store accesses are the two `findOne` reads. -/
theorem validateAppointment_order_and_outcomes (s : HospitalStore) (pf df : Bool)
    (a : Appointment) :
    (∀ e, findOne s.patients (fun q => q.ID == a.PatientID) pf = .error e →
        validateAppointment s pf df a = some patientNotFoundMsg)
  ∧ (∀ p e, findOne s.patients (fun q => q.ID == a.PatientID) pf = .ok p →
        findOne s.doctors (fun q => q.ID == a.DoctorID) df = .error e →
        validateAppointment s pf df a = some doctorNotFoundMsg)
  ∧ (∀ p d, findOne s.patients (fun q => q.ID == a.PatientID) pf = .ok p →
        findOne s.doctors (fun q => q.ID == a.DoctorID) df = .ok d →
        validateAppointment s pf df a = none) := by
  refine ⟨?_, ?_, ?_⟩
  · intro e h
    exact validateAppointment_patient_err df h
  · intro p e hp hd
    exact validateAppointment_doctor_err hp hd
  · intro p d hp hd
    exact validateAppointment_both_ok hp hd

/-- Witness for C1: on a store holding `patient0` (id 1) and `doctor0`
(id 2), validating `appt0` (references 1 and 2) succeeds. -/
theorem validateAppointment_order_and_outcomes_witness :
    validateAppointment store0 false false appt0 = none :=
  (validateAppointment_order_and_outcomes store0 false false appt0).2.2
    patient0 doctor0 (by rfl) (by rfl)

/-! ## C2 -/

/-- C2: a `POST /appointments` request whose patient reference or
doctor reference does not resolve to an existing record is answered
with status 400 carrying the validation error's message, and the store
(in particular its appointment collection) is unchanged. -/
theorem createAppointment_unresolved_ref_bad_request (s : HospitalStore)
    (a : Appointment) (now : Nat) (pf df ifault : Bool) (fid : ObjectID)
    (href : (∀ p ∈ s.patients, p.ID ≠ a.PatientID) ∨ (∀ d ∈ s.doctors, d.ID ≠ a.DoctorID)) :
    ∃ msg,
      validateAppointment s pf df { a with CreatedAt := now, Status := scheduledStatus }
        = some msg
    ∧ createAppointment postMethod (.ok a) s now pf df ifault fid = (⟨400, .text msg⟩, s)
    ∧ (createAppointment postMethod (.ok a) s now pf df ifault fid).2.appointments
        = s.appointments := by
  obtain ⟨msg, hv⟩ := validateAppointment_some_of_bad_ref s pf df
    { a with CreatedAt := now, Status := scheduledStatus } (by exact href)
  refine ⟨msg, hv, ?_, ?_⟩
  · unfold createAppointment
    simp only [ne_eq, not_true_eq_false, if_false]
    rw [hv]
  · unfold createAppointment
    simp only [ne_eq, not_true_eq_false, if_false]
    rw [hv]

/-- Witness for C2: creating an appointment referencing doctor id 9
(absent from `store0`) is rejected with a 400 and leaves the store
unchanged. -/
theorem createAppointment_unresolved_ref_bad_request_witness :
    ∃ msg,
      validateAppointment store0 false false
          { { appt0 with DoctorID := 9 } with CreatedAt := 7, Status := scheduledStatus }
        = some msg
    ∧ createAppointment postMethod (.ok { appt0 with DoctorID := 9 }) store0 7
        false false false 4 = (⟨400, .text msg⟩, store0)
    ∧ (createAppointment postMethod (.ok { appt0 with DoctorID := 9 }) store0 7
        false false false 4).2.appointments = store0.appointments :=
  createAppointment_unresolved_ref_bad_request store0 { appt0 with DoctorID := 9 }
    7 false false false 4 (by right; decide)

/-! ## C10 -/

/-- C10: any error of the store lookups inside `validateAppointment` —
the timeout/`Unavailable` case (fault flag set) as much as the
no-matching-record case — yields the fixed message `patient not found`
for the first lookup, or `doctor not found` for the second; and
whenever validation fails, `createAppointment` answers 400 (BadRequest)
with that message, hence never 500 (InternalServerError), for a store
failure during the validation phase. -/
theorem validation_store_errors_bad_request (s : HospitalStore) (pf df : Bool)
    (a : Appointment) (now : Nat) (ifault : Bool) (fid : ObjectID) :
    (pf = true → validateAppointment s pf df a = some patientNotFoundMsg)
  ∧ (∀ p, findOne s.patients (fun q => q.ID == a.PatientID) pf = .ok p →
        df = true → validateAppointment s pf df a = some doctorNotFoundMsg)
  ∧ (∀ e, findOne s.patients (fun q => q.ID == a.PatientID) pf = .error e →
        validateAppointment s pf df a = some patientNotFoundMsg)
  ∧ (∀ msg,
        validateAppointment s pf df { a with CreatedAt := now, Status := scheduledStatus }
          = some msg →
        createAppointment postMethod (.ok a) s now pf df ifault fid = (⟨400, .text msg⟩, s)
        ∧ (createAppointment postMethod (.ok a) s now pf df ifault fid).1.status ≠ 500) := by
  refine ⟨?_, ?_, ?_, ?_⟩
  · intro hpf
    refine validateAppointment_patient_err (e := .unavailable) df ?_
    unfold findOne
    rw [hpf]
    rfl
  · intro p hp hdf
    refine validateAppointment_doctor_err (e := .unavailable) hp ?_
    unfold findOne
    rw [hdf]
    rfl
  · intro e h
    exact validateAppointment_patient_err df h
  · intro msg hv
    have heq : createAppointment postMethod (.ok a) s now pf df ifault fid
        = (⟨400, .text msg⟩, s) := by
      unfold createAppointment
      simp only [ne_eq, not_true_eq_false, if_false]
      rw [hv]
    exact ⟨heq, by rw [heq]; simp⟩

/-- Witness for C10: with the patient-lookup fault flag set (store
timeout), validation on the well-populated `store0` still reports
`patient not found`, and the handler answers 400, not 500. -/
theorem validation_store_errors_bad_request_witness :
    validateAppointment store0 true false appt0 = some patientNotFoundMsg
  ∧ createAppointment postMethod (.ok appt0) store0 0 true false false 4
      = (⟨400, .text patientNotFoundMsg⟩, store0) := by
  constructor
  · exact (validation_store_errors_bad_request store0 true false appt0 0 false 4).1 rfl
  · exact ((validation_store_errors_bad_request store0 true false appt0 0 false 4).2.2.2
      patientNotFoundMsg (by rfl)).1

/-! ## Success-path helper -/

theorem createAppointment_success_eq (s : HospitalStore) (a : Appointment) (now : Nat)
    (fid : ObjectID)
    (hp : ∃ p ∈ s.patients, p.ID = a.PatientID)
    (hd : ∃ d ∈ s.doctors, d.ID = a.DoctorID) :
    createAppointment postMethod (.ok a) s now false false false fid =
      (⟨201, .appointmentJson
          { a with CreatedAt := now, Status := scheduledStatus, ID := fid }⟩,
       { s with appointments := s.appointments ++
          [{ a with CreatedAt := now, Status := scheduledStatus, ID := fid }] }) := by
  have hv : validateAppointment s false false
      { a with CreatedAt := now, Status := scheduledStatus } = none :=
    validateAppointment_none_of_found s _ hp hd
  unfold createAppointment
  simp only [ne_eq, not_true_eq_false, if_false]
  rw [hv]
  unfold insertAppointment
  simp

/-! ## C3 -/

/-- C3: a `POST /appointments` request with valid references yields a
201 whose persisted record and response record carry status
`Scheduled`; the handler overwrites the decoded status before
validation and insertion, so the result does not depend on any status
value present in the client's payload. -/
theorem createAppointment_forces_scheduled_status (s : HospitalStore) (a : Appointment)
    (now : Nat) (fid : ObjectID)
    (hp : ∃ p ∈ s.patients, p.ID = a.PatientID)
    (hd : ∃ d ∈ s.doctors, d.ID = a.DoctorID) :
    (∃ rec : Appointment, rec.Status = scheduledStatus
      ∧ createAppointment postMethod (.ok a) s now false false false fid =
          (⟨201, .appointmentJson rec⟩,
           { s with appointments := s.appointments ++ [rec] }))
  ∧ (∀ σ : String,
      createAppointment postMethod (.ok { a with Status := σ }) s now false false false fid
        = createAppointment postMethod (.ok a) s now false false false fid) := by
  constructor
  · exact ⟨_, rfl, createAppointment_success_eq s a now fid hp hd⟩
  · intro σ
    rfl

/-- Witness for C3: on `store0`, creating `appt0` (whose payload says
`Cancelled`) persists a `Scheduled` record and answers 201. -/
theorem createAppointment_forces_scheduled_status_witness :
    ∃ rec : Appointment, rec.Status = scheduledStatus
      ∧ createAppointment postMethod (.ok appt0) store0 7 false false false 4 =
          (⟨201, .appointmentJson rec⟩,
           { store0 with appointments := store0.appointments ++ [rec] }) :=
  (createAppointment_forces_scheduled_status store0 appt0 7 4
    ⟨patient0, by decide, by decide⟩ ⟨doctor0, by decide, by decide⟩).1

/-! ## C4 -/

/-- C4: in every creation handler, a failing Entity Store insert — a
`ConstraintViolation` (duplicate email) as much as an `Unavailable`
(timeout/connection failure) — is answered with status 500 carrying
the underlying error's message; the statement is uniform in the error
`e`, so the two kinds are not distinguished in the outward response
(same 500 status, message the error's own). -/
theorem insert_failure_internal_server_error (e : StoreError) :
    (∀ (s : UserStore) (u : User) (now : Nat) (f : Bool) (i : ObjectID),
        insertUser s f i u = .error e →
        createUser postMethod (.ok u) s now f i = (⟨500, .text e.message⟩, s))
  ∧ (∀ (s : HospitalStore) (p : Patient) (now : Nat) (f : Bool) (i : ObjectID),
        insertPatient s f i { p with CreatedAt := now } = .error e →
        createPatient postMethod (.ok p) s now f i = (⟨500, .text e.message⟩, s))
  ∧ (∀ (s : HospitalStore) (d : Doctor) (now : Nat) (f : Bool) (i : ObjectID),
        insertDoctor s f i { d with CreatedAt := now } = .error e →
        createDoctor postMethod (.ok d) s now f i = (⟨500, .text e.message⟩, s))
  ∧ (∀ (s : HospitalStore) (a : Appointment) (now : Nat) (f : Bool) (i : ObjectID),
        validateAppointment s false false
            { a with CreatedAt := now, Status := scheduledStatus } = none →
        insertAppointment s f i { a with CreatedAt := now, Status := scheduledStatus }
            = .error e →
        createAppointment postMethod (.ok a) s now false false f i
            = (⟨500, .text e.message⟩, s))
  ∧ (∀ (s : HospitalStore) (d : Department) (now : Nat) (f : Bool) (i : ObjectID),
        insertDepartment s f i { d with CreatedAt := now } = .error e →
        createDepartment postMethod (.ok d) s now f i = (⟨500, .text e.message⟩, s)) := by
  refine ⟨?_, ?_, ?_, ?_, ?_⟩
  · intro s u now f i h
    unfold createUser
    simp only [ne_eq, not_true_eq_false, if_false]
    rw [h]
  · intro s p now f i h
    unfold createPatient
    simp only [ne_eq, not_true_eq_false, if_false]
    rw [h]
  · intro s d now f i h
    unfold createDoctor
    simp only [ne_eq, not_true_eq_false, if_false]
    rw [h]
  · intro s a now f i hv h
    unfold createAppointment
    simp only [ne_eq, not_true_eq_false, if_false]
    rw [hv, h]
  · intro s d now f i h
    unfold createDepartment
    simp only [ne_eq, not_true_eq_false, if_false]
    rw [h]

/-- Witness for C4: a duplicate-email user insert (constraint
violation) is answered 500 with the violation's message. -/
theorem insert_failure_internal_server_error_witness :
    createUser postMethod (.ok user0) ⟨[userDup]⟩ 0 false 7
      = (⟨500, .text StoreError.constraintViolation.message⟩, ⟨[userDup]⟩) :=
  (insert_failure_internal_server_error .constraintViolation).1
    ⟨[userDup]⟩ user0 0 false 7 (by rfl)

/-! ## C5 -/

/-- C5: a `GET` list request (`getUsers`, `getPatients`) against an
empty collection answers 200 with the JSON encoding of the empty
array, not an error. -/
theorem list_handlers_empty_collection_ok (us : UserStore) (hs : HospitalStore)
    (hu : us.users = []) (hp : hs.patients = []) :
    getUsers getMethod us false false = (⟨200, .usersJson []⟩, us)
  ∧ getPatients getMethod hs false false = (⟨200, .patientsJson []⟩, hs) := by
  constructor
  · unfold getUsers
    simp [hu]
  · unfold getPatients
    simp [hp]

/-- Witness for C5: the empty stores. -/
theorem list_handlers_empty_collection_ok_witness :
    getUsers getMethod emptyUsers false false = (⟨200, .usersJson []⟩, emptyUsers)
  ∧ getPatients getMethod emptyHospital false false
      = (⟨200, .patientsJson []⟩, emptyHospital) :=
  list_handlers_empty_collection_ok emptyUsers emptyHospital rfl rfl

def badBodyMsg : String := "unexpected EOF"

/-! ## C6 -/

/-- C6 counterexample: the claim says every entity created by this
system, User included, carries a creation timestamp assigned by the
handler at the moment of request processing. `createUser` never reads
the processing clock and the `User` struct has no timestamp field, so
the response and the persisted record of a concrete `POST /users`
request are identical whether the request is processed at time 0 or at
time 999. -/
theorem createUser_independent_of_clock :
    createUser postMethod (.ok user0) emptyUsers 0 false 7
      = createUser postMethod (.ok user0) emptyUsers 999 false 7 := rfl

/-- C6 amended: every entity except User — i.e. Patient, Doctor,
Appointment and Department — carries a creation timestamp assigned by
the handler from the processing clock (`now`) and set before the
record is inserted; the User entity carries no creation timestamp and
`createUser` does not read the clock (its result is invariant under
the clock value). -/
theorem creation_timestamps_amended (now : Nat) (fid : ObjectID) :
    (∀ (s : HospitalStore) (p : Patient),
        s.patients.any (fun q => q.Email == p.Email) = false →
        createPatient postMethod (.ok p) s now false fid =
          (⟨201, .patientJson { p with CreatedAt := now, ID := fid }⟩,
           { s with patients := s.patients ++ [{ p with CreatedAt := now, ID := fid }] }))
  ∧ (∀ (s : HospitalStore) (d : Doctor),
        s.doctors.any (fun q => q.Email == d.Email) = false →
        createDoctor postMethod (.ok d) s now false fid =
          (⟨201, .doctorJson { d with CreatedAt := now, ID := fid }⟩,
           { s with doctors := s.doctors ++ [{ d with CreatedAt := now, ID := fid }] }))
  ∧ (∀ (s : HospitalStore) (a : Appointment),
        (∃ p ∈ s.patients, p.ID = a.PatientID) →
        (∃ d ∈ s.doctors, d.ID = a.DoctorID) →
        ∃ rec : Appointment, rec.CreatedAt = now
          ∧ createAppointment postMethod (.ok a) s now false false false fid =
              (⟨201, .appointmentJson rec⟩,
               { s with appointments := s.appointments ++ [rec] }))
  ∧ (∀ (s : HospitalStore) (d : Department),
        createDepartment postMethod (.ok d) s now false fid =
          (⟨201, .departmentJson { d with CreatedAt := now, ID := fid }⟩,
           { s with departments := s.departments ++ [{ d with CreatedAt := now, ID := fid }] }))
  ∧ (∀ (m : String) (b : Except String User) (s : UserStore) (f : Bool) (i : ObjectID)
        (n1 n2 : Nat), createUser m b s n1 f i = createUser m b s n2 f i) := by
  refine ⟨?_, ?_, ?_, ?_, ?_⟩
  · intro s p hdup
    unfold createPatient insertPatient
    simp [hdup]
  · intro s d hdup
    unfold createDoctor insertDoctor
    simp [hdup]
  · intro s a hp hd
    exact ⟨_, rfl, createAppointment_success_eq s a now fid hp hd⟩
  · intro s d
    unfold createDepartment insertDepartment
    simp
  · intro m b s f i n1 n2
    rfl

/-- Witness for C6 amended: creating `patient0` at time 42 persists it
with `CreatedAt = 42`. -/
theorem creation_timestamps_amended_witness :
    createPatient postMethod (.ok patient0) emptyHospital 42 false 7 =
      (⟨201, .patientJson { patient0 with CreatedAt := 42, ID := 7 }⟩,
       { emptyHospital with
          patients := emptyHospital.patients ++ [{ patient0 with CreatedAt := 42, ID := 7 }] }) :=
  (creation_timestamps_amended 42 7).1 emptyHospital patient0 (by rfl)

/-! ## C7 -/

/-- C7: each creation handler rejects a non-POST request with 405
immediately: the response is the same for every request body, decoded
or malformed (so the body is never consulted), and the store is
returned unchanged (no store operation happens). -/
theorem wrong_method_rejected_before_body (method : String) (hm : method ≠ postMethod)
    (now : Nat) (f pf df : Bool) (i : ObjectID) :
    (∀ (body : Except String User) (s : UserStore),
        createUser method body s now f i = (⟨405, .text methodNotAllowedMsg⟩, s))
  ∧ (∀ (body : Except String Patient) (s : HospitalStore),
        createPatient method body s now f i = (⟨405, .text methodNotAllowedMsg⟩, s))
  ∧ (∀ (body : Except String Doctor) (s : HospitalStore),
        createDoctor method body s now f i = (⟨405, .text methodNotAllowedMsg⟩, s))
  ∧ (∀ (body : Except String Appointment) (s : HospitalStore),
        createAppointment method body s now pf df f i = (⟨405, .text methodNotAllowedMsg⟩, s))
  ∧ (∀ (body : Except String Department) (s : HospitalStore),
        createDepartment method body s now f i = (⟨405, .text methodNotAllowedMsg⟩, s)) := by
  refine ⟨?_, ?_, ?_, ?_, ?_⟩
  · intro body s
    unfold createUser
    rw [if_pos hm]
  · intro body s
    unfold createPatient
    rw [if_pos hm]
  · intro body s
    unfold createDoctor
    rw [if_pos hm]
  · intro body s
    unfold createAppointment
    rw [if_pos hm]
  · intro body s
    unfold createDepartment
    rw [if_pos hm]

/-- Witness for C7: a GET to the user-creation endpoint with a
malformed body is answered 405 and the store is unchanged. -/
theorem wrong_method_rejected_before_body_witness :
    createUser getMethod (.error badBodyMsg) emptyUsers 0 false 7
      = (⟨405, .text methodNotAllowedMsg⟩, emptyUsers) :=
  (wrong_method_rejected_before_body getMethod (by decide) 0 false false false 7).1
    (.error badBodyMsg) emptyUsers

/-! ## C8 -/

/-- C8: every successful creation request is answered 201 with the
decoded input carrying the server-set fields and the store-assigned
identifier as the JSON body, and the persisted record is that same
record: `createUser` (identifier only), `createPatient`, `createDoctor`
and `createDepartment` (identifier and timestamp), and
`createAppointment` (identifier, timestamp and forced status). -/
theorem created_response_with_store_id :
    (∀ (s : UserStore) (u : User) (now : Nat) (i : ObjectID),
        s.users.any (fun v => v.Email == u.Email) = false →
        createUser postMethod (.ok u) s now false i =
          (⟨201, .userJson { u with ID := i }⟩, ⟨s.users ++ [{ u with ID := i }]⟩))
  ∧ (∀ (s : HospitalStore) (p : Patient) (now : Nat) (i : ObjectID),
        s.patients.any (fun q => q.Email == p.Email) = false →
        createPatient postMethod (.ok p) s now false i =
          (⟨201, .patientJson { p with CreatedAt := now, ID := i }⟩,
           { s with patients := s.patients ++ [{ p with CreatedAt := now, ID := i }] }))
  ∧ (∀ (s : HospitalStore) (d : Doctor) (now : Nat) (i : ObjectID),
        s.doctors.any (fun q => q.Email == d.Email) = false →
        createDoctor postMethod (.ok d) s now false i =
          (⟨201, .doctorJson { d with CreatedAt := now, ID := i }⟩,
           { s with doctors := s.doctors ++ [{ d with CreatedAt := now, ID := i }] }))
  ∧ (∀ (s : HospitalStore) (a : Appointment) (now : Nat) (i : ObjectID),
        (∃ p ∈ s.patients, p.ID = a.PatientID) →
        (∃ d ∈ s.doctors, d.ID = a.DoctorID) →
        createAppointment postMethod (.ok a) s now false false false i =
          (⟨201, .appointmentJson
              { a with CreatedAt := now, Status := scheduledStatus, ID := i }⟩,
           { s with appointments := s.appointments ++
              [{ a with CreatedAt := now, Status := scheduledStatus, ID := i }] }))
  ∧ (∀ (s : HospitalStore) (d : Department) (now : Nat) (i : ObjectID),
        createDepartment postMethod (.ok d) s now false i =
          (⟨201, .departmentJson { d with CreatedAt := now, ID := i }⟩,
           { s with departments :=
              s.departments ++ [{ d with CreatedAt := now, ID := i }] })) := by
  refine ⟨?_, ?_, ?_, ?_, ?_⟩
  · intro s u now i hdup
    unfold createUser insertUser
    simp [hdup]
  · intro s p now i hdup
    unfold createPatient insertPatient
    simp [hdup]
  · intro s d now i hdup
    unfold createDoctor insertDoctor
    simp [hdup]
  · intro s a now i hp hd
    exact createAppointment_success_eq s a now i hp hd
  · intro s d now i
    unfold createDepartment insertDepartment
    simp

/-- Witness for C8: creating `user0` in the empty store answers 201
with identifier 7 attached, and persists that record. -/
theorem created_response_with_store_id_witness :
    createUser postMethod (.ok user0) emptyUsers 0 false 7 =
      (⟨201, .userJson { user0 with ID := 7 }⟩,
       ⟨emptyUsers.users ++ [{ user0 with ID := 7 }]⟩) :=
  created_response_with_store_id.1 emptyUsers user0 0 7 (by rfl)

/-! ## C9 machinery: append-only store evolution -/

/-- `t` extends `s`: every collection of `t` is the corresponding
collection of `s` with some records appended, so every previously
persisted record is still present, unchanged and in place. -/
def HospitalStore.extendsTo (s t : HospitalStore) : Prop :=
  (∃ l, t.patients = s.patients ++ l) ∧ (∃ l, t.doctors = s.doctors ++ l)
  ∧ (∃ l, t.appointments = s.appointments ++ l)
  ∧ (∃ l, t.departments = s.departments ++ l)

theorem extendsTo_refl (s : HospitalStore) : s.extendsTo s :=
  ⟨⟨[], by simp⟩, ⟨[], by simp⟩, ⟨[], by simp⟩, ⟨[], by simp⟩⟩

theorem extendsTo_add_patient (s : HospitalStore) (r : Patient) :
    s.extendsTo { s with patients := s.patients ++ [r] } :=
  ⟨⟨[r], rfl⟩, ⟨[], by simp⟩, ⟨[], by simp⟩, ⟨[], by simp⟩⟩

theorem extendsTo_add_doctor (s : HospitalStore) (r : Doctor) :
    s.extendsTo { s with doctors := s.doctors ++ [r] } :=
  ⟨⟨[], by simp⟩, ⟨[r], rfl⟩, ⟨[], by simp⟩, ⟨[], by simp⟩⟩

theorem extendsTo_add_appointment (s : HospitalStore) (r : Appointment) :
    s.extendsTo { s with appointments := s.appointments ++ [r] } :=
  ⟨⟨[], by simp⟩, ⟨[], by simp⟩, ⟨[r], rfl⟩, ⟨[], by simp⟩⟩

theorem extendsTo_add_department (s : HospitalStore) (r : Department) :
    s.extendsTo { s with departments := s.departments ++ [r] } :=
  ⟨⟨[], by simp⟩, ⟨[], by simp⟩, ⟨[], by simp⟩, ⟨[r], rfl⟩⟩

theorem insertUser_cases (s : UserStore) (f : Bool) (i : ObjectID) (u : User) :
    (∃ e, insertUser s f i u = .error e) ∨
      insertUser s f i u = .ok (⟨s.users ++ [{ u with ID := i }]⟩, i) := by
  unfold insertUser
  split
  · exact .inl ⟨_, rfl⟩
  · split
    · exact .inl ⟨_, rfl⟩
    · exact .inr rfl

theorem insertPatient_cases (s : HospitalStore) (f : Bool) (i : ObjectID) (p : Patient) :
    (∃ e, insertPatient s f i p = .error e) ∨
      insertPatient s f i p
        = .ok ({ s with patients := s.patients ++ [{ p with ID := i }] }, i) := by
  unfold insertPatient
  split
  · exact .inl ⟨_, rfl⟩
  · split
    · exact .inl ⟨_, rfl⟩
    · exact .inr rfl

theorem insertDoctor_cases (s : HospitalStore) (f : Bool) (i : ObjectID) (d : Doctor) :
    (∃ e, insertDoctor s f i d = .error e) ∨
      insertDoctor s f i d
        = .ok ({ s with doctors := s.doctors ++ [{ d with ID := i }] }, i) := by
  unfold insertDoctor
  split
  · exact .inl ⟨_, rfl⟩
  · split
    · exact .inl ⟨_, rfl⟩
    · exact .inr rfl

theorem insertAppointment_cases (s : HospitalStore) (f : Bool) (i : ObjectID)
    (a : Appointment) :
    (∃ e, insertAppointment s f i a = .error e) ∨
      insertAppointment s f i a
        = .ok ({ s with appointments := s.appointments ++ [{ a with ID := i }] }, i) := by
  unfold insertAppointment
  split
  · exact .inl ⟨_, rfl⟩
  · exact .inr rfl

theorem insertDepartment_cases (s : HospitalStore) (f : Bool) (i : ObjectID)
    (d : Department) :
    (∃ e, insertDepartment s f i d = .error e) ∨
      insertDepartment s f i d
        = .ok ({ s with departments := s.departments ++ [{ d with ID := i }] }, i) := by
  unfold insertDepartment
  split
  · exact .inl ⟨_, rfl⟩
  · exact .inr rfl

theorem createUser_users_extend (method : String) (body : Except String User)
    (s : UserStore) (now : Nat) (f : Bool) (i : ObjectID) :
    ∃ t, (createUser method body s now f i).2.users = s.users ++ t := by
  by_cases hm : method = postMethod
  · subst hm
    cases body with
    | error e =>
      refine ⟨[], ?_⟩
      show s.users = s.users ++ []
      simp
    | ok u =>
      rcases insertUser_cases s f i u with ⟨e, he⟩ | hok
      · have h : createUser postMethod (.ok u) s now f i = (⟨500, .text e.message⟩, s) := by
          unfold createUser
          simp only [ne_eq, not_true_eq_false, if_false]
          rw [he]
        exact ⟨[], by rw [h]; simp⟩
      · have h : createUser postMethod (.ok u) s now f i
            = (⟨201, .userJson { u with ID := i }⟩, ⟨s.users ++ [{ u with ID := i }]⟩) := by
          unfold createUser
          simp only [ne_eq, not_true_eq_false, if_false]
          rw [hok]
        exact ⟨[{ u with ID := i }], by rw [h]⟩
  · have h : createUser method body s now f i = (⟨405, .text methodNotAllowedMsg⟩, s) := by
      unfold createUser
      rw [if_pos hm]
    exact ⟨[], by rw [h]; simp⟩

theorem getUsers_store_unchanged (method : String) (s : UserStore) (f1 f2 : Bool) :
    (getUsers method s f1 f2).2 = s := by
  unfold getUsers
  split
  · rfl
  · split
    · rfl
    · split
      · rfl
      · rfl

theorem getPatients_store_unchanged (method : String) (s : HospitalStore) (f1 f2 : Bool) :
    (getPatients method s f1 f2).2 = s := by
  unfold getPatients
  split
  · rfl
  · split
    · rfl
    · split
      · rfl
      · rfl

theorem createPatient_extends (method : String) (body : Except String Patient)
    (s : HospitalStore) (now : Nat) (f : Bool) (i : ObjectID) :
    s.extendsTo (createPatient method body s now f i).2 := by
  by_cases hm : method = postMethod
  · subst hm
    cases body with
    | error e => exact extendsTo_refl s
    | ok p =>
      rcases insertPatient_cases s f i { p with CreatedAt := now } with ⟨e, he⟩ | hok
      · have h : (createPatient postMethod (.ok p) s now f i).2 = s := by
          unfold createPatient
          simp only [ne_eq, not_true_eq_false, if_false]
          rw [he]
        rw [h]
        exact extendsTo_refl s
      · have h : (createPatient postMethod (.ok p) s now f i).2
            = { s with patients :=
                s.patients ++ [{ p with CreatedAt := now, ID := i }] } := by
          unfold createPatient
          simp only [ne_eq, not_true_eq_false, if_false]
          rw [hok]
        rw [h]
        exact extendsTo_add_patient s _
  · have h : (createPatient method body s now f i).2 = s := by
      unfold createPatient
      rw [if_pos hm]
    rw [h]
    exact extendsTo_refl s

theorem createDoctor_extends (method : String) (body : Except String Doctor)
    (s : HospitalStore) (now : Nat) (f : Bool) (i : ObjectID) :
    s.extendsTo (createDoctor method body s now f i).2 := by
  by_cases hm : method = postMethod
  · subst hm
    cases body with
    | error e => exact extendsTo_refl s
    | ok d =>
      rcases insertDoctor_cases s f i { d with CreatedAt := now } with ⟨e, he⟩ | hok
      · have h : (createDoctor postMethod (.ok d) s now f i).2 = s := by
          unfold createDoctor
          simp only [ne_eq, not_true_eq_false, if_false]
          rw [he]
        rw [h]
        exact extendsTo_refl s
      · have h : (createDoctor postMethod (.ok d) s now f i).2
            = { s with doctors :=
                s.doctors ++ [{ d with CreatedAt := now, ID := i }] } := by
          unfold createDoctor
          simp only [ne_eq, not_true_eq_false, if_false]
          rw [hok]
        rw [h]
        exact extendsTo_add_doctor s _
  · have h : (createDoctor method body s now f i).2 = s := by
      unfold createDoctor
      rw [if_pos hm]
    rw [h]
    exact extendsTo_refl s

theorem createDepartment_extends (method : String) (body : Except String Department)
    (s : HospitalStore) (now : Nat) (f : Bool) (i : ObjectID) :
    s.extendsTo (createDepartment method body s now f i).2 := by
  by_cases hm : method = postMethod
  · subst hm
    cases body with
    | error e => exact extendsTo_refl s
    | ok d =>
      rcases insertDepartment_cases s f i { d with CreatedAt := now } with ⟨e, he⟩ | hok
      · have h : (createDepartment postMethod (.ok d) s now f i).2 = s := by
          unfold createDepartment
          simp only [ne_eq, not_true_eq_false, if_false]
          rw [he]
        rw [h]
        exact extendsTo_refl s
      · have h : (createDepartment postMethod (.ok d) s now f i).2
            = { s with departments :=
                s.departments ++ [{ d with CreatedAt := now, ID := i }] } := by
          unfold createDepartment
          simp only [ne_eq, not_true_eq_false, if_false]
          rw [hok]
        rw [h]
        exact extendsTo_add_department s _
  · have h : (createDepartment method body s now f i).2 = s := by
      unfold createDepartment
      rw [if_pos hm]
    rw [h]
    exact extendsTo_refl s

theorem createAppointment_extends (method : String) (body : Except String Appointment)
    (s : HospitalStore) (now : Nat) (pf df f : Bool) (i : ObjectID) :
    s.extendsTo (createAppointment method body s now pf df f i).2 := by
  by_cases hm : method = postMethod
  · subst hm
    cases body with
    | error e => exact extendsTo_refl s
    | ok a =>
      cases hv : validateAppointment s pf df
          { a with CreatedAt := now, Status := scheduledStatus } with
      | some msg =>
        have h : (createAppointment postMethod (.ok a) s now pf df f i).2 = s := by
          unfold createAppointment
          simp only [ne_eq, not_true_eq_false, if_false]
          rw [hv]
        rw [h]
        exact extendsTo_refl s
      | none =>
        rcases insertAppointment_cases s f i
            { a with CreatedAt := now, Status := scheduledStatus } with ⟨e, he⟩ | hok
        · have h : (createAppointment postMethod (.ok a) s now pf df f i).2 = s := by
            unfold createAppointment
            simp only [ne_eq, not_true_eq_false, if_false]
            rw [hv, he]
          rw [h]
          exact extendsTo_refl s
        · have h : (createAppointment postMethod (.ok a) s now pf df f i).2
              = { s with appointments := s.appointments ++
                  [{ a with CreatedAt := now, Status := scheduledStatus, ID := i }] } := by
            unfold createAppointment
            simp only [ne_eq, not_true_eq_false, if_false]
            rw [hv, hok]
          rw [h]
          exact extendsTo_add_appointment s _
  · have h : (createAppointment method body s now pf df f i).2 = s := by
      unfold createAppointment
      rw [if_pos hm]
    rw [h]
    exact extendsTo_refl s

/-! ## C9 -/

/-- C9: the identifier of every persisted record is the one the Entity
Store assigns at insertion (`i` below), whatever identifier the
client's decoded payload carried — the inserted record is the payload
with `ID` overwritten by the store's identifier, uniformly in the
payload; and the system is append-only: every handler of both source
files either leaves the store untouched or appends one record, so a
persisted record is never updated or deleted (the store contract is
modelled from the spec, §4.1, the driver being external). -/
theorem ids_store_assigned_append_only :
    (∀ (s : UserStore) (f : Bool) (i : ObjectID) (u : User) (t : UserStore) (j : ObjectID),
        insertUser s f i u = .ok (t, j) →
        j = i ∧ t.users = s.users ++ [{ u with ID := i }])
  ∧ (∀ (s : HospitalStore) (f : Bool) (i : ObjectID) (p : Patient)
        (t : HospitalStore) (j : ObjectID),
        insertPatient s f i p = .ok (t, j) →
        j = i ∧ t = { s with patients := s.patients ++ [{ p with ID := i }] })
  ∧ (∀ (s : HospitalStore) (f : Bool) (i : ObjectID) (d : Doctor)
        (t : HospitalStore) (j : ObjectID),
        insertDoctor s f i d = .ok (t, j) →
        j = i ∧ t = { s with doctors := s.doctors ++ [{ d with ID := i }] })
  ∧ (∀ (s : HospitalStore) (f : Bool) (i : ObjectID) (a : Appointment)
        (t : HospitalStore) (j : ObjectID),
        insertAppointment s f i a = .ok (t, j) →
        j = i ∧ t = { s with appointments := s.appointments ++ [{ a with ID := i }] })
  ∧ (∀ (s : HospitalStore) (f : Bool) (i : ObjectID) (d : Department)
        (t : HospitalStore) (j : ObjectID),
        insertDepartment s f i d = .ok (t, j) →
        j = i ∧ t = { s with departments := s.departments ++ [{ d with ID := i }] })
  ∧ (∀ (method : String) (body : Except String User) (s : UserStore) (now : Nat)
        (f : Bool) (i : ObjectID),
        ∃ t, (createUser method body s now f i).2.users = s.users ++ t)
  ∧ (∀ (method : String) (s : UserStore) (f1 f2 : Bool),
        (getUsers method s f1 f2).2 = s)
  ∧ (∀ (method : String) (body : Except String Patient) (s : HospitalStore) (now : Nat)
        (f : Bool) (i : ObjectID),
        s.extendsTo (createPatient method body s now f i).2)
  ∧ (∀ (method : String) (s : HospitalStore) (f1 f2 : Bool),
        (getPatients method s f1 f2).2 = s)
  ∧ (∀ (method : String) (body : Except String Doctor) (s : HospitalStore) (now : Nat)
        (f : Bool) (i : ObjectID),
        s.extendsTo (createDoctor method body s now f i).2)
  ∧ (∀ (method : String) (body : Except String Appointment) (s : HospitalStore) (now : Nat)
        (pf df f : Bool) (i : ObjectID),
        s.extendsTo (createAppointment method body s now pf df f i).2)
  ∧ (∀ (method : String) (body : Except String Department) (s : HospitalStore) (now : Nat)
        (f : Bool) (i : ObjectID),
        s.extendsTo (createDepartment method body s now f i).2) := by
  refine ⟨?_, ?_, ?_, ?_, ?_, createUser_users_extend, getUsers_store_unchanged,
    createPatient_extends, getPatients_store_unchanged, createDoctor_extends,
    createAppointment_extends, createDepartment_extends⟩
  · intro s f i u t j h
    rcases insertUser_cases s f i u with ⟨e, he⟩ | hok
    · rw [he] at h
      cases h
    · rw [hok] at h
      injection h with h1
      injection h1 with h2 h3
      exact ⟨h3.symm, by rw [← h2]⟩
  · intro s f i p t j h
    rcases insertPatient_cases s f i p with ⟨e, he⟩ | hok
    · rw [he] at h
      cases h
    · rw [hok] at h
      injection h with h1
      injection h1 with h2 h3
      exact ⟨h3.symm, h2.symm⟩
  · intro s f i d t j h
    rcases insertDoctor_cases s f i d with ⟨e, he⟩ | hok
    · rw [he] at h
      cases h
    · rw [hok] at h
      injection h with h1
      injection h1 with h2 h3
      exact ⟨h3.symm, h2.symm⟩
  · intro s f i a t j h
    rcases insertAppointment_cases s f i a with ⟨e, he⟩ | hok
    · rw [he] at h
      cases h
    · rw [hok] at h
      injection h with h1
      injection h1 with h2 h3
      exact ⟨h3.symm, h2.symm⟩
  · intro s f i d t j h
    rcases insertDepartment_cases s f i d with ⟨e, he⟩ | hok
    · rw [he] at h
      cases h
    · rw [hok] at h
      injection h with h1
      injection h1 with h2 h3
      exact ⟨h3.symm, h2.symm⟩

/-- Witness for C9: inserting `user0` (payload id 0) into the empty
store under store-assigned identifier 7 stores it with id 7. -/
theorem ids_store_assigned_append_only_witness :
    (7 : ObjectID) = 7
  ∧ (⟨[{ user0 with ID := 7 }]⟩ : UserStore).users
      = emptyUsers.users ++ [{ user0 with ID := 7 }] :=
  ids_store_assigned_append_only.1 emptyUsers false 7 user0
    ⟨[{ user0 with ID := 7 }]⟩ 7 (by rfl)
